import Mathlib

/-!
Verification of the go-mapnik binding layer (sgelb/go-mapnik).

This file shallowly embeds the Go wrapper code of `mapnik.go` in Lean.
The wrapped native rendering engine (libmapnik, reached through the vendored
C shim declared in `mapnik_c_api.h`) is opaque to the wrapper; we model the
native map object as an explicit record of the state the wrapper can reach
through that C API (canvas size, SRS string, current extent, and the ordered
layer list with per-layer active flags), and we model the engine's rasterizer
and codec registry as an abstract `Engine` record of functions, so that every
theorem quantifies over all possible engine behaviours.

The Go `Map` struct caches `width`, `height` and the layer-activation
snapshot `layerStatus` next to the native handle; the embedding mirrors that
layout.  Pure functions of the wrapper (`storeLayerStatus`,
`currentLayerStatus`, `resetLayerStatus`, `SelectLayers`, `ResetLayers`,
`Resize`, `SRS`, `Render`, `RenderImage`, `RenderToFile`, `Encode`) are
translated line by line from `mapnik.go`.  Native functions whose
implementation is not part of the Go sources (`mapnik_map_resize`,
`mapnik_map_render_to_file`) are modelled from the specification and marked
as such in their doc comments.
-/

set_option maxHeartbeats 1000000

namespace Mapnik

/-- One layer of the native map as observable through the C API:
its name (`mapnik_map_layer_name`) and its active flag
(`mapnik_map_layer_is_active` / `mapnik_map_layer_set_active`). -/
structure MapLayer where
  name : String
  active : Bool
deriving Repr, DecidableEq

/-- The state of a native mapnik map object reachable through the C API
surface used by the wrapper: canvas pixel dimensions, projection string,
current view extent, and the ordered layer list. -/
structure NativeMap where
  width : Nat
  height : Nat
  srs : String
  extent : Option (Float × Float × Float × Float)
  layers : List MapLayer
deriving Repr

/-- The Go `Map` struct: the native handle state plus the Go-side cached
`width`, `height` and the saved layer-activation snapshot `layerStatus`
(`[]` plays the role of Go's nil / zero-length slice: the code only ever
tests `len(m.layerStatus)`). -/
structure Map where
  native : NativeMap
  width : Nat
  height : Nat
  layerStatus : List Bool
deriving Repr

/-- Go `CountLayers` returns count of layers (`mapnik_map_layer_count`). -/
def CountLayers (m : Map) : Nat :=
  m.native.layers.length

/-- Go `currentLayerStatus` collects the active flag of every layer in index
order, exactly as the loop over `mapnik_map_layer_is_active` does. -/
def currentLayerStatus (m : Map) : List Bool :=
  m.native.layers.map MapLayer.active

/-- Go `storeLayerStatus`: a no-op when a snapshot is already held
(`len(m.layerStatus) > 0`), otherwise captures the current per-layer
active flags. -/
def storeLayerStatus (m : Map) : Map :=
  if 0 < m.layerStatus.length then m
  else { m with layerStatus := currentLayerStatus m }

/-- The write-back loop of `resetLayerStatus`: layer `i` gets the stored
flag `status[i]`.  The Go loop runs for `i < CountLayers`, which the caller
guarantees is at most the snapshot length. -/
def applyStatus : List MapLayer → List Bool → List MapLayer
  | [], _ => []
  | l :: ls, [] => l :: ls
  | l :: ls, b :: bs => { l with active := b } :: applyStatus ls bs

/-- Go `resetLayerStatus`: a no-op when no snapshot is held; refuses (without
touching anything) when the current layer count exceeds the snapshot length;
otherwise writes the stored flag back to every current layer index and
discards the snapshot (`m.layerStatus = nil`). -/
def resetLayerStatus (m : Map) : Map :=
  if m.layerStatus.length = 0 then m
  else if m.layerStatus.length < CountLayers m then m
  else { m with
          native := { m.native with layers := applyStatus m.native.layers m.layerStatus },
          layerStatus := [] }

/-- Go `Status` defines if a layer should be rendered or not. -/
inductive Status where
  | Exclude : Status
  | Default : Status
  | Include : Status
deriving Repr, DecidableEq

/-- The constants `Exclude = -1`, `Default = 0`, `Include = 1`. -/
def Status.toInt : Status → Int
  | Status.Exclude => -1
  | Status.Default => 0
  | Status.Include => 1

/-- One iteration of the `SelectLayers` loop body applied to a single layer:
evaluate the selector on the layer name and set the active flag on
`Include` / `Exclude`, leave it unchanged on `Default`. -/
def selectOne (selector : String → Status) (l : MapLayer) : MapLayer :=
  match selector l.name with
  | Status.Include => { l with active := true }
  | Status.Exclude => { l with active := false }
  | Status.Default => l

/-- Go `SelectLayers` enables/disables single layers.  The selector gets called
for each layer; `storeLayerStatus` runs first. -/
def SelectLayers (m : Map) (selector : String → Status) : Map :=
  let m1 := storeLayerStatus m
  { m1 with native := { m1.native with layers := m1.native.layers.map (selectOne selector) } }

/-- Go `ResetLayers` resets all layers to the initial status. -/
def ResetLayers (m : Map) : Map :=
  resetLayerStatus m

/-- The layer-activation machine is in the `Saved` state exactly when the
code's own guard `len(m.layerStatus) > 0` holds; `Unsaved` otherwise. -/
def isSaved (m : Map) : Bool :=
  !m.layerStatus.isEmpty

/-- Modelled from the spec: `mapnik_map_resize` (implemented in the vendored
C shim, whose source is not under src/) updates the canvas pixel dimensions;
the stored SRS and the current view extent are untouched. -/
def nativeResize (nm : NativeMap) (w h : Nat) : NativeMap :=
  { nm with width := w, height := h }

/-- Go `Resize` changes the map size in pixel: it calls the native resize and
updates the Go-side cached `width` and `height`. -/
def Resize (m : Map) (w h : Nat) : Map :=
  { m with native := nativeResize m.native w h, width := w, height := h }

/-- Go `SRS` returns the projection of the map (`mapnik_map_get_srs`). -/
def SRS (m : Map) : String :=
  m.native.srs

/-- Go `RenderOpts` defines rendering options: fixed scale denominator,
scale factor and output format string. -/
structure RenderOpts where
  Scale : Float
  ScaleFactor : Float
  Format : String

/-- The opaque native engine behind the C API, as far as the render and
encode paths use it: `rasterize` is `mapnik_map_render_to_image` (which may
fail, returning NULL), `toRaw` is `mapnik_image_to_raw`, `toBlob` is
`mapnik_image_to_blob` (returning NULL for a format string the codec
registry does not recognize), and `fromRaw` is `mapnik_image_from_raw`.
Theorems quantify over every such engine. -/
structure Engine (Img : Type) where
  rasterize : NativeMap → Float → Float → Option Img
  toRaw : Img → List Nat
  toBlob : Img → String → Option (List Nat)
  fromRaw : List Nat → Nat → Nat → Option Img

/-- The scale-factor normalization every render entry point performs:
`if scaleFactor == 0.0 { scaleFactor = 1.0 }`. -/
def effScaleFactor (sf : Float) : Float :=
  if sf == 0.0 then 1.0 else sf

/-- The format default `Render` and `RenderToFile` perform:
an empty format string is replaced by `"png256"`. -/
def effFormat (fmt : String) : String :=
  if fmt != "" then fmt else "png256"

/-- Go `Render` returns the map as an encoded image: rasterize, then either
hand back the raw pixel buffer (format `"raw"`) or encode through the codec
registry; `none` models the error return. -/
def Render {Img : Type} (e : Engine Img) (m : Map) (opts : RenderOpts) : Option (List Nat) :=
  match e.rasterize m.native opts.Scale (effScaleFactor opts.ScaleFactor) with
  | none => none
  | some i =>
    if opts.Format == "raw" then some (e.toRaw i)
    else e.toBlob i (effFormat opts.Format)

/-- The `image.NRGBA` value `RenderImage` builds: raw pixel bytes, stride
`width*4`, and the rectangle taken from the Go-side cached dimensions. -/
structure NRGBAImage where
  Pix : List Nat
  Stride : Nat
  width : Nat
  height : Nat
deriving Repr, DecidableEq

/-- Go `RenderImage` returns the map as an unencoded `image.NRGBA`. -/
def RenderImage {Img : Type} (e : Engine Img) (m : Map) (opts : RenderOpts) :
    Option NRGBAImage :=
  match e.rasterize m.native opts.Scale (effScaleFactor opts.ScaleFactor) with
  | none => none
  | some i =>
    some { Pix := e.toRaw i, Stride := m.width * 4, width := m.width, height := m.height }

/-- Modelled from the spec: `mapnik_map_render_to_file` (implemented in the
vendored C shim, whose source is not under src/) rasterizes the map exactly
like render-to-image and pushes the result through the same codec registry,
writing the encoded bytes to the file; on any failure no file content is
produced.  The result is the byte content of the written file, `none` when
the call fails and no file is left behind. -/
def renderToFileNative {Img : Type} (e : Engine Img) (nm : NativeMap)
    (scale sf : Float) (fmt : String) : Option (List Nat) :=
  match e.rasterize nm scale sf with
  | none => none
  | some i => e.toBlob i fmt

/-- Go `RenderToFile` writes the map as an encoded image to the file system,
after the same scale-factor normalization and format defaulting as
`Render`. -/
def RenderToFile {Img : Type} (e : Engine Img) (m : Map) (opts : RenderOpts) :
    Option (List Nat) :=
  renderToFileNative e m.native opts.Scale (effScaleFactor opts.ScaleFactor)
    (effFormat opts.Format)

/-- The two error returns of `Encode`: "unable to create image from raw"
(unsupported input image layout) and the codec error from
`mapnik_image_last_error` (unsupported format string). -/
inductive EncodeError where
  | inputError : EncodeError
  | formatError : EncodeError
deriving Repr, DecidableEq

/-- The `image.Image` argument of `Encode` as the type switch in the Go code
sees it: a non-premultiplied `*image.NRGBA` (pixel bytes, width, height), a
premultiplied `*image.RGBA` (pixel bytes, width, height), or any other
implementation of the interface. -/
inductive GoImage where
  | nrgba : List Nat → Nat → Nat → GoImage
  | rgba : List Nat → Nat → Nat → GoImage
  | other : GoImage
deriving Repr, DecidableEq

/-- Go `Encode` encodes an image with mapnik's image encoder: the type switch hands the
pixel buffer of an `*image.NRGBA` or `*image.RGBA` to `mapnik_image_from_raw`
unchanged (both branches are textually identical in the source); any other
image type leaves the native image NULL, which fails as an input error;
a NULL blob from the codec fails as a format error. -/
def Encode {Img : Type} (e : Engine Img) (img : GoImage) (format : String) :
    Except EncodeError (List Nat) :=
  let i : Option Img :=
    match img with
    | GoImage.nrgba pix w h => e.fromRaw pix w h
    | GoImage.rgba pix w h => e.fromRaw pix w h
    | GoImage.other => none
  match i with
  | none => Except.error EncodeError.inputError
  | some i =>
    match e.toBlob i format with
    | none => Except.error EncodeError.formatError
    | some b => Except.ok b

/-- Alpha-premultiplication of one channel, as Go's `color.RGBAModel`
performs it when converting an NRGBA color to RGBA. -/
def premultiplyChannel (c a : Nat) : Nat :=
  c * a / 255

/-- The premultiplied RGBA pixel buffer representing the same colors as a
given NRGBA pixel buffer: every 4-byte group `(r, g, b, a)` becomes
`(r*a/255, g*a/255, b*a/255, a)`. -/
def premultiplyPix : List Nat → List Nat
  | r :: g :: b :: a :: rest =>
      premultiplyChannel r a :: premultiplyChannel g a :: premultiplyChannel b a :: a ::
        premultiplyPix rest
  | rest => rest

attribute [ext] MapLayer
attribute [ext] NativeMap
attribute [ext] Map

/-- Helper fact: `selectOne` never changes the name of a layer, whatever the selector
decides. -/
theorem selectOne_name (selector : String → Status) (l : MapLayer) :
    (selectOne selector l).name = l.name := by
  unfold selectOne
  cases selector l.name <;> rfl

/-- Writing the captured flags back over any name-preserving rewrite of the
layer list restores the original list. -/
theorem applyStatus_restore (f : MapLayer → MapLayer)
    (hf : ∀ l, (f l).name = l.name) :
    ∀ ls : List MapLayer, applyStatus (ls.map f) (ls.map MapLayer.active) = ls := by
  intro ls
  induction ls with
  | nil => rfl
  | cons l ls ih =>
    show applyStatus (f l :: ls.map f) (l.active :: ls.map MapLayer.active) = l :: ls
    unfold applyStatus
    rw [ih]
    have hl : ({ f l with active := l.active } : MapLayer) = l :=
      MapLayer.ext (hf l) rfl
    rw [hl]

/-- A small concrete map used to instantiate the theorems below:
two layers, no snapshot held. -/
def demoMap : Map :=
  { native := { width := 800, height := 600, srs := "+init=epsg:4326", extent := none,
                layers := [{ name := "layerA", active := true },
                           { name := "layerB", active := false }] },
    width := 800, height := 600, layerStatus := [] }

/-- Claim C1 (amended: the map must hold no snapshot when `SelectLayers` is
called): for every map with at least one layer, no held snapshot, and every
selection policy, `SelectLayers` followed by `ResetLayers` restores exactly
the per-layer active flags that held before the `SelectLayers` call — in
fact the whole map state — and the snapshot is discarded afterwards. -/
theorem selectLayers_resetLayers_roundtrip (m : Map) (policy : String → Status)
    (hU : m.layerStatus = []) (hL : m.native.layers ≠ []) :
    ResetLayers (SelectLayers m policy) = m := by
  have h1 : storeLayerStatus m = { m with layerStatus := currentLayerStatus m } := by
    unfold storeLayerStatus
    rw [hU]
    simp
  have h2 : SelectLayers m policy =
      { m with native := { m.native with layers := m.native.layers.map (selectOne policy) },
               layerStatus := currentLayerStatus m } := by
    unfold SelectLayers
    rw [h1]
  have hlen : 0 < m.native.layers.length := List.length_pos.mpr hL
  unfold ResetLayers resetLayerStatus
  rw [h2]
  simp only [currentLayerStatus, CountLayers, List.length_map]
  rw [if_neg (by omega), if_neg (by omega)]
  rw [applyStatus_restore (selectOne policy) (selectOne_name policy) m.native.layers]
  exact Map.ext (NativeMap.ext rfl rfl rfl rfl rfl) rfl rfl hU.symm

/-- Claim C1 fails as literally stated (for every map): a map that already
holds a snapshot diverging from its current flags has its flags overwritten
with the old snapshot by the round trip, not restored to the values that
held immediately before `SelectLayers`. -/
theorem selectLayers_resetLayers_roundtrip_cex :
    currentLayerStatus (ResetLayers (SelectLayers
        { native := { width := 800, height := 600, srs := "s", extent := none,
                      layers := [{ name := "a", active := false }] },
          width := 800, height := 600, layerStatus := [true] }
        (fun _ => Status.Default)))
      ≠ currentLayerStatus
        { native := { width := 800, height := 600, srs := "s", extent := none,
                      layers := [{ name := "a", active := false }] },
          width := 800, height := 600, layerStatus := [true] } := by
  decide

/-- The round-trip theorem instantiated at a concrete two-layer map. -/
theorem selectLayers_resetLayers_roundtrip_inst :
    demoMap.layerStatus = [] ∧ demoMap.native.layers ≠ [] ∧
      ResetLayers (SelectLayers demoMap (fun _ => Status.Exclude)) = demoMap :=
  ⟨rfl, by decide,
    selectLayers_resetLayers_roundtrip demoMap (fun _ => Status.Exclude) rfl (by decide)⟩

/-- Helper fact: `storeLayerStatus` never touches the native map state. -/
theorem storeLayerStatus_native (m : Map) : (storeLayerStatus m).native = m.native := by
  unfold storeLayerStatus
  split <;> rfl

/-- Claim C2 (amended: the final `Saved` postcondition needs at least one
layer, since a zero-length capture is indistinguishable from no snapshot):
`SelectLayers` stores a snapshot of the current flags if none is stored,
sets every layer's flag according to the policy decision on its name
(`Include` to active, `Exclude` to inactive, `Default` unchanged), and
leaves the machine holding a snapshot. -/
theorem selectLayers_spec (m : Map) (policy : String → Status)
    (hL : m.native.layers ≠ []) :
    ((SelectLayers m policy).layerStatus =
        if m.layerStatus = [] then currentLayerStatus m else m.layerStatus)
    ∧ (∀ (i : Nat) (l : MapLayer), m.native.layers[i]? = some l →
        (SelectLayers m policy).native.layers[i]? =
          some (MapLayer.mk l.name
            (match policy l.name with
             | Status.Include => true
             | Status.Exclude => false
             | Status.Default => l.active)))
    ∧ isSaved (SelectLayers m policy) = true := by
  refine ⟨?_, ?_, ?_⟩
  · show (storeLayerStatus m).layerStatus = _
    unfold storeLayerStatus
    rcases hst : m.layerStatus with _ | ⟨b, bs⟩ <;> simp [hst]
  · intro i l hi
    show ((storeLayerStatus m).native.layers.map (selectOne policy))[i]? = _
    rw [storeLayerStatus_native, List.getElem?_map, hi]
    cases hp : policy l.name <;> simp [selectOne, hp]
  · show (!(storeLayerStatus m).layerStatus.isEmpty) = true
    unfold storeLayerStatus
    rcases hst : m.layerStatus with _ | ⟨b, bs⟩ <;>
      simp [hst, currentLayerStatus, hL]

/-- Claim C2 fails as literally stated (for every map): on a map with no
layers and no snapshot, `SelectLayers` leaves a zero-length snapshot, which
the machine's own guard treats as no snapshot at all — the machine is not
in the `Saved` state after the call. -/
theorem selectLayers_spec_cex :
    isSaved (SelectLayers
      { native := { width := 800, height := 600, srs := "s", extent := none, layers := [] },
        width := 800, height := 600, layerStatus := [] }
      (fun _ => Status.Include)) = false := by
  decide

/-- The `SelectLayers` specification instantiated at a concrete map,
policy and layer index. -/
theorem selectLayers_spec_inst :
    demoMap.native.layers ≠ [] ∧
      (SelectLayers demoMap (fun _ => Status.Include)).native.layers[0]? =
        some (MapLayer.mk ("layerA") true) ∧
      isSaved (SelectLayers demoMap (fun _ => Status.Include)) = true :=
  ⟨by decide,
    (selectLayers_spec demoMap (fun _ => Status.Include) (by decide)).2.1 0
      (MapLayer.mk ("layerA") true) rfl,
    (selectLayers_spec demoMap (fun _ => Status.Include) (by decide)).2.2⟩

/-- Claim C3: a second `storeLayerStatus` without an intervening reset is a
no-op — the held snapshot equals the one after the first call, whatever has
happened to the layers' active flags in between (modelled as replacing the
layer list by any list of the same length). -/
theorem storeLayerStatus_second_noop (m : Map) (layers2 : List MapLayer)
    (hlen : layers2.length = m.native.layers.length) :
    (storeLayerStatus
        { storeLayerStatus m with
            native := { (storeLayerStatus m).native with layers := layers2 } }).layerStatus
      = (storeLayerStatus m).layerStatus := by
  by_cases h : 0 < m.layerStatus.length
  · have h1 : storeLayerStatus m = m := by
      unfold storeLayerStatus
      rw [if_pos h]
    rw [h1]
    unfold storeLayerStatus
    simp [h]
  · have hst : m.layerStatus = [] := by
      cases hm : m.layerStatus with
      | nil => rfl
      | cons b bs => rw [hm] at h; simp at h
    rcases hly : m.native.layers with _ | ⟨l, ls⟩
    · have h2 : layers2 = [] := by
        rw [hly] at hlen
        exact List.length_eq_zero.mp hlen
      simp [storeLayerStatus, currentLayerStatus, hst, hly, h2]
    · simp [storeLayerStatus, currentLayerStatus, hst, hly]

/-- The layer list of `demoMap` with both active flags flipped. -/
def demoLayers2 : List MapLayer :=
  [{ name := "layerA", active := false }, { name := "layerB", active := true }]

/-- The second-capture no-op instantiated: flags of both layers flipped
between the two calls. -/
theorem storeLayerStatus_second_noop_inst :
    demoLayers2.length = demoMap.native.layers.length ∧
      (storeLayerStatus
          { storeLayerStatus demoMap with
              native := { (storeLayerStatus demoMap).native with layers := demoLayers2 } }).layerStatus
        = (storeLayerStatus demoMap).layerStatus :=
  ⟨by decide, storeLayerStatus_second_noop demoMap demoLayers2 (by decide)⟩

/-- Claim C4: with a snapshot held, if the current layer count exceeds the
snapshot length, `ResetLayers` refuses to apply it — no layer is touched. -/
theorem resetLayerStatus_refuses_growth (m : Map)
    (hS : 0 < m.layerStatus.length) (hG : m.layerStatus.length < CountLayers m) :
    (ResetLayers m).native.layers = m.native.layers := by
  unfold ResetLayers resetLayerStatus
  rw [if_neg (by omega), if_pos hG]

/-- A concrete map whose layer list has grown past its held snapshot. -/
def grownMap : Map :=
  { native := { width := 800, height := 600, srs := "+init=epsg:4326", extent := none,
                layers := [{ name := "layerA", active := true },
                           { name := "layerB", active := false }] },
    width := 800, height := 600, layerStatus := [false] }

/-- The refusal theorem instantiated at `grownMap`. -/
theorem resetLayerStatus_refuses_growth_inst :
    (0 < grownMap.layerStatus.length ∧ grownMap.layerStatus.length < CountLayers grownMap)
    ∧ (ResetLayers grownMap).native.layers = grownMap.native.layers :=
  ⟨⟨by decide, by decide⟩,
    resetLayerStatus_refuses_growth grownMap (by decide) (by decide)⟩

/-- Helper fact: `applyStatus` writes back exactly the first `ls.length` stored flags
when enough of them are held. -/
theorem applyStatus_actives :
    ∀ (ls : List MapLayer) (bs : List Bool), ls.length ≤ bs.length →
      (applyStatus ls bs).map MapLayer.active = bs.take ls.length := by
  intro ls
  induction ls with
  | nil => intro bs _; rfl
  | cons l ls ih =>
    intro bs h
    cases bs with
    | nil => simp at h
    | cons b bs =>
      show ({ l with active := b } :: applyStatus ls bs).map MapLayer.active
          = b :: bs.take ls.length
      simp [ih bs (by simpa using h)]

/-- When a snapshot is held and the layer count is at most its length,
`resetLayerStatus` writes the stored flags back and discards the
snapshot. -/
theorem resetLayerStatus_applies (m : Map)
    (hS : 0 < m.layerStatus.length) (hle : CountLayers m ≤ m.layerStatus.length) :
    (resetLayerStatus m).native.layers.map MapLayer.active
        = m.layerStatus.take (CountLayers m)
    ∧ (resetLayerStatus m).layerStatus = [] := by
  unfold resetLayerStatus
  rw [if_neg (by omega), if_neg (by omega)]
  exact ⟨applyStatus_actives m.native.layers m.layerStatus hle, rfl⟩

/-- Claim C10: the refusal of `ResetLayers` on a grown layer list is atomic
(the whole map state, snapshot included, is untouched and the machine stays
`Saved`), and once the layer count is back to at most the snapshot length a
later `ResetLayers` still applies the original snapshot and discards it. -/
theorem resetLayerStatus_refusal_atomic (m : Map)
    (hS : 0 < m.layerStatus.length) (hG : m.layerStatus.length < CountLayers m) :
    ResetLayers m = m
    ∧ isSaved (ResetLayers m) = true
    ∧ ∀ layers2 : List MapLayer, layers2.length ≤ m.layerStatus.length →
        ((ResetLayers { m with native := { m.native with layers := layers2 } }).native.layers.map
            MapLayer.active = m.layerStatus.take layers2.length
          ∧ (ResetLayers { m with native := { m.native with layers := layers2 } }).layerStatus = []) := by
  have h1 : ResetLayers m = m := by
    unfold ResetLayers resetLayerStatus
    rw [if_neg (by omega), if_pos hG]
  refine ⟨h1, ?_, ?_⟩
  · rw [h1]
    unfold isSaved
    rcases hst : m.layerStatus with _ | ⟨b, bs⟩
    · rw [hst] at hS; simp at hS
    · simp
  · intro layers2 hle
    exact resetLayerStatus_applies
      { m with native := { m.native with layers := layers2 } } hS hle

/-- The atomic-refusal theorem instantiated at `grownMap`, shrinking back
to a single layer before the second `ResetLayers`. -/
theorem resetLayerStatus_refusal_atomic_inst :
    (0 < grownMap.layerStatus.length ∧ grownMap.layerStatus.length < CountLayers grownMap)
    ∧ ResetLayers grownMap = grownMap
    ∧ ((ResetLayers
          { grownMap with
              native := { grownMap.native with layers := [{ name := "layerA", active := true }] } }).native.layers.map
        MapLayer.active = grownMap.layerStatus.take 1) :=
  ⟨⟨by decide, by decide⟩,
    (resetLayerStatus_refusal_atomic grownMap (by decide) (by decide)).1,
    ((resetLayerStatus_refusal_atomic grownMap (by decide) (by decide)).2.2
      [{ name := "layerA", active := true }] (by decide)).1⟩

/-- Claim C9 (amended: the map must hold no snapshot to begin with): on a
map with no layers and no snapshot, `storeLayerStatus` is a no-op and
leaves the machine `Unsaved`, a later `storeLayerStatus` after layers have
appeared captures a fresh snapshot, and `ResetLayers` changes nothing. -/
theorem storeLayerStatus_zero_layers (m : Map)
    (hL : m.native.layers = []) (hU : m.layerStatus = []) :
    storeLayerStatus m = m
    ∧ isSaved (storeLayerStatus m) = false
    ∧ (∀ layers2 : List MapLayer,
        (storeLayerStatus
            { storeLayerStatus m with
                native := { (storeLayerStatus m).native with layers := layers2 } }).layerStatus
          = layers2.map MapLayer.active)
    ∧ ResetLayers m = m := by
  have hc : currentLayerStatus m = [] := by simp [currentLayerStatus, hL]
  have h1 : storeLayerStatus m = m := by
    unfold storeLayerStatus
    rw [hU, hc]
    simp only [List.length_nil, lt_self_iff_false, if_false]
    exact Map.ext rfl rfl rfl hU.symm
  refine ⟨h1, ?_, ?_, ?_⟩
  · rw [h1]
    simp [isSaved, hU]
  · intro layers2
    rw [h1]
    simp [storeLayerStatus, currentLayerStatus, hU]
  · unfold ResetLayers resetLayerStatus
    rw [hU]
    simp

/-- Claim C9 fails as literally stated (for every zero-layer map): a
zero-layer map that still holds a snapshot (its layer list shrank after the
snapshot was taken) stays `Saved` under `storeLayerStatus`, and
`ResetLayers` does change it — the snapshot is discarded. -/
theorem storeLayerStatus_zero_layers_cex :
    (isSaved (storeLayerStatus
        { native := { width := 800, height := 600, srs := "s", extent := none, layers := [] },
          width := 800, height := 600, layerStatus := [true] }) = true)
    ∧ (ResetLayers
        { native := { width := 800, height := 600, srs := "s", extent := none, layers := [] },
          width := 800, height := 600, layerStatus := [true] }).layerStatus ≠ [true] :=
  ⟨rfl, by decide⟩

/-- A concrete map with no layers and no snapshot. -/
def emptyMap : Map :=
  { native := { width := 800, height := 600, srs := "+init=epsg:4326", extent := none,
                layers := [] },
    width := 800, height := 600, layerStatus := [] }

/-- The zero-layer theorem instantiated at `emptyMap`, with two layers
appearing before the second capture. -/
theorem storeLayerStatus_zero_layers_inst :
    (emptyMap.native.layers = [] ∧ emptyMap.layerStatus = [])
    ∧ (storeLayerStatus
        { storeLayerStatus emptyMap with
            native := { (storeLayerStatus emptyMap).native with layers := demoLayers2 } }).layerStatus
        = demoLayers2.map MapLayer.active :=
  ⟨⟨rfl, rfl⟩, (storeLayerStatus_zero_layers emptyMap rfl rfl).2.2.1 demoLayers2⟩

/-- A tiny deterministic engine over a unit image type, used to instantiate
the render theorems on concrete inputs. -/
def unitEngine : Engine Unit :=
  { rasterize := fun _ _ _ => some ()
  , toRaw := fun _ => [1, 2, 3]
  , toBlob := fun _ fmt => if fmt == "png24" then some [4, 5] else none
  , fromRaw := fun _ _ _ => some () }

/-- Claim C5: the three render entry points are consistent.  For any engine,
map state and options: with a non-`raw` format, `Render` returns exactly the
bytes `RenderToFile` writes; with the `raw` pseudo-format, `Render` returns
exactly the pixel buffer of `RenderImage`; and `RenderImage` is the decoded
form of the very same rasterization (same scale, same normalized scale
factor) every entry point performs. -/
theorem render_entry_points_agree {Img : Type} (e : Engine Img) (m : Map) (opts : RenderOpts) :
    (opts.Format ≠ "raw" → Render e m opts = RenderToFile e m opts)
    ∧ (opts.Format = "raw" → Render e m opts = (RenderImage e m opts).map NRGBAImage.Pix)
    ∧ (RenderImage e m opts).map NRGBAImage.Pix
        = (e.rasterize m.native opts.Scale (effScaleFactor opts.ScaleFactor)).map e.toRaw := by
  unfold Render RenderImage RenderToFile renderToFileNative
  cases hr : e.rasterize m.native opts.Scale (effScaleFactor opts.ScaleFactor) with
  | none => exact ⟨fun _ => rfl, fun _ => rfl, rfl⟩
  | some i =>
    refine ⟨fun hfmt => ?_, fun hfmt => ?_, rfl⟩
    · dsimp only
      rw [if_neg (show ¬((opts.Format == "raw") = true) by simp [hfmt])]
    · simp [hfmt]

/-- The consistency theorem instantiated at a concrete engine, once with an
encoded format and once with the `raw` pseudo-format. -/
theorem render_entry_points_agree_inst :
    (("png24" : String) ≠ "raw"
      ∧ Render unitEngine demoMap (RenderOpts.mk 0.0 0.0 "png24")
          = RenderToFile unitEngine demoMap (RenderOpts.mk 0.0 0.0 "png24"))
    ∧ (("raw" : String) = "raw"
      ∧ Render unitEngine demoMap (RenderOpts.mk 0.0 0.0 "raw")
          = (RenderImage unitEngine demoMap (RenderOpts.mk 0.0 0.0 "raw")).map NRGBAImage.Pix) :=
  ⟨⟨by decide,
      (render_entry_points_agree unitEngine demoMap (RenderOpts.mk 0.0 0.0 "png24")).1
        (by decide)⟩,
    ⟨rfl,
      (render_entry_points_agree unitEngine demoMap (RenderOpts.mk 0.0 0.0 "raw")).2.1 rfl⟩⟩

/-- An engine whose codec registry recognizes only the `"png256"` format. -/
def png256Engine : Engine Unit :=
  { rasterize := fun _ _ _ => some ()
  , toRaw := fun _ => [9]
  , toBlob := fun _ fmt => if fmt == "png256" then some [5] else none
  , fromRaw := fun _ _ _ => some () }

/-- Claim C6 (amended: the format string must be neither the `raw`
pseudo-format nor empty): a nonempty, non-`raw` format string the codec
registry does not recognize makes `Render` fail with no bytes and
`RenderToFile` fail with no file content. -/
theorem render_unknown_format_fails {Img : Type} (e : Engine Img) (m : Map) (opts : RenderOpts)
    (hraw : opts.Format ≠ "raw") (hempty : opts.Format ≠ "")
    (hunrec : ∀ i : Img, e.toBlob i opts.Format = none) :
    Render e m opts = none ∧ RenderToFile e m opts = none := by
  have heff : effFormat opts.Format = opts.Format := by
    unfold effFormat
    rw [if_pos (show (opts.Format != "") = true by simp [hempty])]
  unfold Render RenderToFile renderToFileNative
  rw [heff]
  cases hr : e.rasterize m.native opts.Scale (effScaleFactor opts.ScaleFactor) with
  | none => exact ⟨rfl, rfl⟩
  | some i =>
    refine ⟨?_, hunrec i⟩
    dsimp only
    rw [if_neg (show ¬((opts.Format == "raw") = true) by simp [hraw])]
    exact hunrec i

/-- Claim C6 fails as literally stated (for every unrecognized format
string): the `raw` pseudo-format bypasses the codec registry and succeeds
even though the registry does not recognize it, and the empty format string
is silently replaced by the default `"png256"` before reaching the
registry, so it succeeds as well. -/
theorem render_unknown_format_cex :
    ((∀ i : Unit, png256Engine.toBlob i ("raw") = none)
      ∧ Render png256Engine demoMap (RenderOpts.mk 0.0 0.0 "raw") ≠ none)
    ∧ ((∀ i : Unit, png256Engine.toBlob i ("") = none)
      ∧ Render png256Engine demoMap (RenderOpts.mk 0.0 0.0 "") ≠ none) :=
  ⟨⟨fun _ => rfl, by decide⟩, ⟨fun _ => rfl, by decide⟩⟩

/-- The unknown-format theorem instantiated at a concrete unrecognized
format string. -/
theorem render_unknown_format_fails_inst :
    (("bogus" : String) ≠ "raw" ∧ ("bogus" : String) ≠ "")
    ∧ (Render png256Engine demoMap (RenderOpts.mk 0.0 0.0 "bogus") = none
      ∧ RenderToFile png256Engine demoMap (RenderOpts.mk 0.0 0.0 "bogus") = none) :=
  ⟨⟨by decide, by decide⟩,
    render_unknown_format_fails png256Engine demoMap (RenderOpts.mk 0.0 0.0 "bogus")
      (by decide) (by decide) (fun _ => rfl)⟩

/-- An engine whose image type is the raw pixel buffer itself: the native
image keeps exactly the bytes it was constructed from, and the only
recognized codec serializes those bytes unchanged. -/
def bufferEngine : Engine (List Nat) :=
  { rasterize := fun _ _ _ => none
  , toRaw := fun i => i
  , toBlob := fun i fmt => if fmt == "png" then some i else none
  , fromRaw := fun pix _ _ => if pix.isEmpty then none else some pix }

/-- Claim C7 (amended: no premultiplication normalization happens): `Encode`
accepts exactly the NRGBA and RGBA layouts and passes either pixel buffer to
the native encoder unchanged — the two branches are interchangeable on the
same bytes; any other image type fails with the input error, an unrecognized
format fails with the format error, and a failed native image construction
fails with the input error. -/
theorem encode_layouts {Img : Type} (e : Engine Img) (pix : List Nat) (w h : Nat)
    (fmt : String) :
    Encode e (GoImage.rgba pix w h) fmt = Encode e (GoImage.nrgba pix w h) fmt
    ∧ Encode e GoImage.other fmt = Except.error EncodeError.inputError
    ∧ (∀ i : Img, e.fromRaw pix w h = some i → e.toBlob i fmt = none →
        Encode e (GoImage.nrgba pix w h) fmt = Except.error EncodeError.formatError)
    ∧ (e.fromRaw pix w h = none →
        Encode e (GoImage.nrgba pix w h) fmt = Except.error EncodeError.inputError) := by
  refine ⟨rfl, rfl, ?_, ?_⟩
  · intro i hfr hbl
    simp [Encode, hfr, hbl]
  · intro hfr
    simp [Encode, hfr]

/-- Claim C7 fails as stated: `Encode` performs no premultiplication
normalization.  The premultiplied RGBA buffer representing the same color
as the NRGBA buffer `(255, 0, 0, 128)` reaches the encoder as different
bytes and encodes to a different blob. -/
theorem encode_premultiply_cex :
    premultiplyPix [255, 0, 0, 128] = [128, 0, 0, 128]
    ∧ Encode bufferEngine (GoImage.rgba (premultiplyPix [255, 0, 0, 128]) 1 1) "png"
        = Except.ok [128, 0, 0, 128]
    ∧ Encode bufferEngine (GoImage.nrgba [255, 0, 0, 128] 1 1) "png"
        = Except.ok [255, 0, 0, 128]
    ∧ ([128, 0, 0, 128] : List Nat) ≠ [255, 0, 0, 128] :=
  ⟨by decide, rfl, rfl, by decide⟩

/-- The encode theorem instantiated: an unrecognized format on a good
buffer, and a failing native construction on an empty buffer. -/
theorem encode_layouts_inst :
    (bufferEngine.fromRaw [1, 2, 3, 4] 1 1 = some [1, 2, 3, 4]
      ∧ bufferEngine.toBlob [1, 2, 3, 4] ("gif") = none
      ∧ Encode bufferEngine (GoImage.nrgba [1, 2, 3, 4] 1 1) "gif"
          = Except.error EncodeError.formatError)
    ∧ (bufferEngine.fromRaw [] 1 1 = none
      ∧ Encode bufferEngine (GoImage.nrgba [] 1 1) "gif"
          = Except.error EncodeError.inputError) :=
  ⟨⟨rfl, rfl,
      (encode_layouts bufferEngine [1, 2, 3, 4] 1 1 "gif").2.2.1 [1, 2, 3, 4] rfl rfl⟩,
    ⟨rfl, (encode_layouts bufferEngine [] 1 1 "gif").2.2.2 rfl⟩⟩

/-- Claim C8: `Resize` changes only the canvas pixel dimensions — the SRS
string and the current view extent are untouched — and subsequent
`RenderImage` calls build their output image with the new dimensions. -/
theorem resize_frame (m : Map) (w h : Nat) :
    SRS (Resize m w h) = SRS m
    ∧ (Resize m w h).native.extent = m.native.extent
    ∧ (Resize m w h).width = w ∧ (Resize m w h).height = h
    ∧ (Resize m w h).native.width = w ∧ (Resize m w h).native.height = h
    ∧ ∀ (Img : Type) (e : Engine Img) (opts : RenderOpts) (img : NRGBAImage),
        RenderImage e (Resize m w h) opts = some img → img.width = w ∧ img.height = h := by
  refine ⟨rfl, rfl, rfl, rfl, rfl, rfl, ?_⟩
  intro Img e opts img himg
  unfold RenderImage at himg
  cases hr : e.rasterize (Resize m w h).native opts.Scale (effScaleFactor opts.ScaleFactor) with
  | none =>
    rw [hr] at himg
    exact Option.noConfusion himg
  | some i =>
    rw [hr] at himg
    injection himg with h2
    subst h2
    exact ⟨rfl, rfl⟩

/-- The resize theorem instantiated: after `Resize` to 400×300 the rendered
image carries the new dimensions. -/
theorem resize_frame_inst :
    RenderImage unitEngine (Resize demoMap 400 300) (RenderOpts.mk 0.0 0.0 "raw")
        = some (NRGBAImage.mk [1, 2, 3] 1600 400 300)
    ∧ ((NRGBAImage.mk [1, 2, 3] 1600 400 300).width = 400
      ∧ (NRGBAImage.mk [1, 2, 3] 1600 400 300).height = 300) :=
  ⟨rfl,
    (resize_frame demoMap 400 300).2.2.2.2.2.2 Unit unitEngine
      (RenderOpts.mk 0.0 0.0 "raw") (NRGBAImage.mk [1, 2, 3] 1600 400 300) rfl⟩

end Mapnik
